import Mathlib

/-!
Shallow embedding of `llm_auditor.py` (class `LLMAuditor`), the audit and
validation engine of the repository: the schema.org type registry, JSON-LD and
microdata extraction with required-field validation (`analyze_schema`), the
example-snippet table (`get_schema_example`), the content heuristics, FAQ
detection and the recommendation ladder (`analyze_page`).

A parsed HTML document is modelled by the data the auditor queries from it:
the JSON-LD script blocks (already classified by how `json.loads` would fare
on their text), the elements carrying an `itemtype` attribute, the element
counts, and the list of `div`/`section` container elements with their class
token lists, ids and text fragments.
-/

namespace LLMAuditor

/-- One entry of the `self.schema_types` registry: the required and the
recommended field names of a schema.org type. -/
structure SchemaTypeSpec where
  required : List String
  recommended : List String
deriving DecidableEq, Repr

/-- The `self.schema_types` registry literal from `LLMAuditor.__init__`
(lines 29-50 of `llm_auditor.py`). -/
def schema_types : List (String × SchemaTypeSpec) :=
  [ ("Article",
      { required := ["headline", "author", "datePublished"],
        recommended := ["description", "image", "publisher"] }),
    ("Product",
      { required := ["name", "description", "offers"],
        recommended := ["image", "brand", "review"] }),
    ("Organization",
      { required := ["name", "url"],
        recommended := ["logo", "contactPoint", "address"] }),
    ("WebPage",
      { required := ["name", "description"],
        recommended := ["publisher", "dateModified"] }),
    ("FAQPage",
      { required := ["mainEntity"],
        recommended := ["description"] }) ]

/-- A `script type="application/ld+json"` block, classified by the outcome of
`json.loads(script.string)` in `analyze_schema`: the text is not valid JSON
(or is absent), or parses to a non-dict value, or parses to a dict with some
top-level keys and an optional string value at the key `@type`. -/
inductive JsonLd where
  | invalid
  | nonDict
  | obj (typeVal : Option String) (keys : List String)
deriving DecidableEq, Repr

/-- An element carrying an `itemtype` attribute, as `analyze_schema` queries
it: the attribute value and the `itemprop` attribute values found among the
element descendants (what `item.find(attrs={"itemprop": f})` can see). -/
structure MicroItem where
  itemtype : String
  itemprops : List String
deriving DecidableEq, Repr

/-- One record of `schema_data["recommendations"]`, i.e. a suggested fix:
the dict `{"type": ..., "description": ..., "code": ...}`. -/
structure Fix where
  type : String
  description : String
  code : String
deriving DecidableEq, Repr

/-- The dict returned by `analyze_schema` (lines 54-60). -/
structure SchemaData where
  has_schema : Bool
  has_json_ld : Bool
  found_types : List String
  missing_required : List (String × String)
  recommendations : List Fix
deriving DecidableEq, Repr

/-- Python `str.split(sep)` for a one-character separator, on character
lists: always returns a nonempty list of segments; `''.split('/') == ['']`. -/
def splitChars (sep : Char) : List Char → List (List Char)
  | [] => [[]]
  | c :: cs =>
    let rest := splitChars sep cs
    if c = sep then [] :: rest
    else
      match rest with
      | [] => [[c]]
      | r :: rs => (c :: r) :: rs

/-- Python `s.split(sep)` on strings (one-character separator). -/
def pySplit (s : String) (sep : Char) : List String :=
  (splitChars sep s.toList).map String.mk

/-- `itemtype.split('/')[-1]`: the last segment of a '/'-separated string.
The split of any string is nonempty, so the default is never taken. -/
def lastSeg (s : String) : String :=
  (pySplit s '/').getLastD ""

/-- Processing of one JSON-LD block by the loop at lines 66-82: the
`found_types` entries and the `missing_required` entries it appends.
A parse failure or a non-dict value is skipped by the bare `except` /
the `isinstance` check; a missing or falsy (empty) `@type` is skipped by
`if schema_type:`; an unregistered type is appended to `found_types` but
checked against no required fields. -/
def processJsonLdBlock (b : JsonLd) : List String × List (String × String) :=
  match b with
  | .invalid => ([], [])
  | .nonDict => ([], [])
  | .obj typeVal keys =>
    match typeVal with
    | none => ([], [])
    | some schema_type =>
      if schema_type = "" then ([], [])
      else
        match schema_types.lookup schema_type with
        | none => ([schema_type], [])
        | some spec =>
          ([schema_type],
           (spec.required.filter (fun f => !(keys.contains f))).map
             (fun f => (schema_type, f)))

/-- Processing of one `itemtype`-carrying element by the loop at lines 88-99:
the type name is the last path segment; an empty segment is skipped by
`if itemtype:`; a required field is missing when no descendant carries
`itemprop` equal to it. -/
def processMicroItem (item : MicroItem) : List String × List (String × String) :=
  let itemtype := lastSeg item.itemtype
  if itemtype = "" then ([], [])
  else
    match schema_types.lookup itemtype with
    | none => ([itemtype], [])
    | some spec =>
      ([itemtype],
       (spec.required.filter (fun f => !(item.itemprops.contains f))).map
         (fun f => (itemtype, f)))

/-- The nested `examples` literal of `get_schema_example` (lines 144-178). -/
def examplesTable : List (String × List (String × String)) :=
  [ ("Article",
      [ ("headline", "\x7b\"@type\": \"Article\", \"headline\": \"Tytuł artykułu\"\x7d"),
        ("author", "\x7b\"@type\": \"Article\", \"author\": \x7b\"@type\": \"Person\", \"name\": \"Imię Nazwisko\"\x7d\x7d"),
        ("datePublished", "\x7b\"@type\": \"Article\", \"datePublished\": \"2024-01-01\"\x7d") ]),
    ("Product",
      [ ("name", "\x7b\"@type\": \"Product\", \"name\": \"Nazwa produktu\"\x7d"),
        ("description", "\x7b\"@type\": \"Product\", \"description\": \"Szczegółowy opis produktu\"\x7d"),
        ("offers", "\x7b\"@type\": \"Product\", \"offers\": \x7b\"@type\": \"Offer\", \"price\": \"99.99\", \"priceCurrency\": \"PLN\"\x7d\x7d") ]),
    ("Organization",
      [ ("name", "\x7b\"@type\": \"Organization\", \"name\": \"Nazwa organizacji\"\x7d"),
        ("url", "\x7b\"@type\": \"Organization\", \"url\": \"https://www.example.com\"\x7d") ]),
    ("WebPage",
      [ ("name", "\x7b\"@type\": \"WebPage\", \"name\": \"Tytuł strony\"\x7d"),
        ("description", "\x7b\"@type\": \"WebPage\", \"description\": \"Opis strony\"\x7d") ]),
    ("FAQPage",
      [ ("mainEntity", "\n\x7b\n    \"@type\": \"FAQPage\",\n    \"mainEntity\": [\x7b\n        \"@type\": \"Question\",\n        \"name\": \"Pytanie?\",\n        \"acceptedAnswer\": \x7b\n            \"@type\": \"Answer\",\n            \"text\": \"Odpowiedź.\"\n        \x7d\n    \x7d]\n\x7d\n") ]) ]

/-- `get_schema_example` (lines 142-179): nested lookup defaulting to the
empty string, `examples.get(schema_type, {}).get(field, '')`. -/
def get_schema_example (schema_type field : String) : String :=
  (((examplesTable.lookup schema_type).getD []).lookup field).getD ""

/-- The "basic" suggested fix appended at lines 102-125 when neither
microdata nor JSON-LD was seen. -/
def basicFix : Fix :=
  { type := "basic",
    description := "Dodaj podstawowe dane strukturalne schema.org",
    code := "\n<script type=\"application/ld+json\">\n\x7b\n    \"@context\": \"https://schema.org\",\n    \"@type\": \"WebPage\",\n    \"name\": \"Tytuł strony\",\n    \"description\": \"Opis strony\",\n    \"publisher\": \x7b\n        \"@type\": \"Organization\",\n        \"name\": \"Nazwa organizacji\",\n        \"logo\": \x7b\n            \"@type\": \"ImageObject\",\n            \"url\": \"URL logo\"\n        \x7d\n    \x7d,\n    \"dateModified\": \"2024-01-01\"\n\x7d\n</script>\n" }

/-- The "missing-field" suggested fix built at lines 128-138 for one
`missing_required` entry: guarded by the type being registered and the
example snippet being nonempty (`if example:`). -/
def mkMissingFix (p : String × String) : Option Fix :=
  if (schema_types.lookup p.1).isSome then
    let snippet := get_schema_example p.1 p.2
    if snippet = "" then none
    else
      some { type := "missing_field",
             description := "Dodaj wymagane pole \"" ++ p.2 ++ "\" dla typu " ++ p.1,
             code := snippet }
  else none

/-- `LLMAuditor.analyze_schema` (lines 52-140), as a pure function of the
JSON-LD blocks and the `itemtype`-carrying elements of the parsed document,
in document order. `has_json_ld` is set by `if json_ld_scripts:`,
`has_schema` by `if microdata:`; `found_types` and `missing_required`
accumulate the per-block and per-element appends in order; the
recommendations are the optional basic fix followed by one candidate fix per
`missing_required` entry. -/
def analyze_schema (json_ld_scripts : List JsonLd) (microdata : List MicroItem) :
    SchemaData :=
  let has_json_ld := !json_ld_scripts.isEmpty
  let jres := json_ld_scripts.map processJsonLdBlock
  let has_schema := !microdata.isEmpty
  let mres := microdata.map processMicroItem
  let found_types := (jres.map Prod.fst).flatten ++ (mres.map Prod.fst).flatten
  let missing_required := (jres.map Prod.snd).flatten ++ (mres.map Prod.snd).flatten
  let recommendations :=
    (if !has_schema && !has_json_ld then [basicFix] else [])
      ++ missing_required.filterMap mkMissingFix
  { has_schema := has_schema,
    has_json_ld := has_json_ld,
    found_types := found_types,
    missing_required := missing_required,
    recommendations := recommendations }

/-- `p` is an initial run of `s` (character lists). Mirrors the start of a
Python substring scan. -/
def charsHavePre (p s : List Char) : Bool :=
  match p, s with
  | [], _ => true
  | _ :: _, [] => false
  | a :: p, b :: s => a == b && charsHavePre p s

/-- `p` occurs contiguously somewhere in `s` (character lists). -/
def charsHaveSub (p s : List Char) : Bool :=
  charsHavePre p s ||
    match s with
    | [] => false
    | _ :: s => charsHaveSub p s

/-- Python `needle in hay` on strings: contiguous substring containment. -/
def strContainsSub (hay needle : String) : Bool :=
  charsHaveSub needle.toList hay.toList

/-- Python `s.lower()` (ASCII range, which covers the audit's uses). -/
def pyLower (s : String) : String :=
  String.mk (s.toList.map Char.toLower)

/-- A `div` or `section` element of the parsed document, with the data the
FAQ scan at lines 197-200 reads: the class attribute as a token list
(BeautifulSoup treats `class` as multi-valued, so `section.get('class', [])`
is the list of whitespace-separated tokens), the id attribute (empty string
when absent, as `section.get('id', '')`), and the element text fragments in
order (what `get_text` walks). -/
structure Container where
  classes : List String
  id : String
  texts : List String
deriving DecidableEq, Repr

/-- Python `s.strip()`: leading and trailing whitespace removed. -/
def pyStrip (s : String) : String :=
  String.mk
    (((s.toList.dropWhile Char.isWhitespace).reverse.dropWhile
        Char.isWhitespace).reverse)

/-- `section.get_text(strip=True)`: each text fragment stripped of
surrounding whitespace, concatenated with no separator. -/
def getTextStrip (c : Container) : String :=
  String.join (c.texts.map pyStrip)

/-- The condition at line 199:
`'faq' in section.get('class', []) or 'faq' in section.get('id', '').lower()`.
The class test is list membership of the exact token "faq" (case-sensitive);
the id test is substring containment in the lowercased id. -/
def isFaqSection (c : Container) : Bool :=
  c.classes.contains "faq" || strContainsSub (pyLower c.id) "faq"

/-- The parsed document, as the data `analyze_page` queries from the
BeautifulSoup object: JSON-LD script blocks and `itemtype`-carrying elements
(document order), the `h1`/`h2`/`h3` counts, the `div`/`section` container
elements (document order), and the paragraph/list/image/link/word counts. -/
structure Doc where
  json_ld_scripts : List JsonLd
  microdata : List MicroItem
  h1 : Nat
  h2 : Nat
  h3 : Nat
  containers : List Container
  paragraphs : Nat
  lists : Nat
  images : Nat
  links : Nat
  word_count : Nat
deriving DecidableEq, Repr

/-- The `PageAudit` record (lines 12-21), restricted to the fields the core
computes (the heading and content dicts are carried as the `Doc` counts). -/
structure PageAudit where
  url : String
  has_schema : Bool
  has_json_ld : Bool
  h1 : Nat
  h2 : Nat
  h3 : Nat
  faq_sections : List String
  recommendations : List String
  paragraphs : Nat
  lists : Nat
  images : Nat
  links : Nat
  word_count : Nat
  suggested_fixes : List Fix
  schema_analysis : SchemaData
deriving DecidableEq, Repr

/-- `LLMAuditor.analyze_page` (lines 181-255) on an already-parsed document:
heading counts, `analyze_schema`, the FAQ scan, the content counts, the
nine-rule recommendation ladder in source order, and the suggested fixes
taken from `schema_analysis['recommendations']`. -/
def analyze_page (url : String) (doc : Doc) : PageAudit :=
  let schema_analysis := analyze_schema doc.json_ld_scripts doc.microdata
  let faq_sections :=
    doc.containers.filterMap
      (fun c => if isFaqSection c then some (getTextStrip c) else none)
  let recommendations :=
    (if doc.h1 = 0 then ["Dodaj nagłówek H1"]
     else if doc.h1 > 1 then
       ["Upewnij się, że masz tylko jeden nagłówek H1 na stronie"]
     else [])
    ++ (if doc.h2 = 0 then
          ["Dodaj nagłówki H2 do lepszej strukturyzacji treści"]
        else [])
    ++ (if !schema_analysis.has_schema && !schema_analysis.has_json_ld then
          ["Dodaj dane strukturalne schema.org"]
        else [])
    ++ (if doc.paragraphs < 3 then
          ["Rozbuduj treść strony - dodaj więcej paragrafów"]
        else [])
    ++ (if doc.lists = 0 then
          ["Dodaj listy wypunktowane lub numerowane dla lepszej czytelności"]
        else [])
    ++ (if doc.images = 0 then
          ["Dodaj obrazy do wizualnego wzbogacenia treści"]
        else [])
    ++ (if doc.word_count < 300 then
          ["Rozbuduj treść - strona powinna zawierać minimum 300 słów"]
        else [])
    ++ (if faq_sections.isEmpty then
          ["Dodaj sekcję FAQ z najczęściej zadawanymi pytaniami"]
        else [])
    ++ (if doc.links < 3 then
          ["Dodaj więcej linków wewnętrznych do powiązanych treści"]
        else [])
  { url := url,
    has_schema := schema_analysis.has_schema,
    has_json_ld := schema_analysis.has_json_ld,
    h1 := doc.h1,
    h2 := doc.h2,
    h3 := doc.h3,
    faq_sections := faq_sections,
    recommendations := recommendations,
    paragraphs := doc.paragraphs,
    lists := doc.lists,
    images := doc.images,
    links := doc.links,
    word_count := doc.word_count,
    suggested_fixes := schema_analysis.recommendations,
    schema_analysis := schema_analysis }

/-! Spec-side models, used to state refinement claims. -/

/-- Modelled on the spec's SchemaInstance: the type name and the set of
field names observed present, for a JSON-LD block that yields an instance
(parses to a dict with a usable nonempty `@type`). -/
def jsonLdInstance (b : JsonLd) : Option (String × List String) :=
  match b with
  | .obj (some t) keys => if t = "" then none else some (t, keys)
  | _ => none

/-- Modelled on the spec's SchemaInstance for a microdata element: the last
path segment of `itemtype` when nonempty, with the descendant `itemprop`
names as field set. -/
def microInstance (it : MicroItem) : Option (String × List String) :=
  if lastSeg it.itemtype = "" then none
  else some (lastSeg it.itemtype, it.itemprops)

/-- The spec's ordered list of schema instances of a parsed document:
JSON-LD instances first, then microdata instances, in document order. -/
def schemaInstances (j : List JsonLd) (m : List MicroItem) :
    List (String × List String) :=
  j.filterMap jsonLdInstance ++ m.filterMap microInstance

/-- The spec's recommendation rule ladder (spec section 4.5): the fire
condition of each of the nine rules paired with its message, in the spec's
order; the second entry is the `else if` arm of rule 1, which fires exactly
when `h1 > 1`. -/
def specRuleLadder (h1 h2 : Nat) (has_schema has_json_ld : Bool)
    (paragraphs lists images word_count : Nat) (faq_sections : List String)
    (links : Nat) : List (Bool × String) :=
  [ (decide (h1 = 0), "Dodaj nagłówek H1"),
    (decide (h1 > 1), "Upewnij się, że masz tylko jeden nagłówek H1 na stronie"),
    (decide (h2 = 0), "Dodaj nagłówki H2 do lepszej strukturyzacji treści"),
    (!(has_schema || has_json_ld), "Dodaj dane strukturalne schema.org"),
    (decide (paragraphs < 3), "Rozbuduj treść strony - dodaj więcej paragrafów"),
    (decide (lists = 0), "Dodaj listy wypunktowane lub numerowane dla lepszej czytelności"),
    (decide (images = 0), "Dodaj obrazy do wizualnego wzbogacenia treści"),
    (decide (word_count < 300), "Rozbuduj treść - strona powinna zawierać minimum 300 słów"),
    (faq_sections.isEmpty, "Dodaj sekcję FAQ z najczęściej zadawanymi pytaniami"),
    (decide (links < 3), "Dodaj więcej linków wewnętrznych do powiązanych treści") ]

/-- The spec's recommendation list: the messages of the rules that fire,
kept in ladder order, one message per fired rule. -/
def specRecommendations (h1 h2 : Nat) (has_schema has_json_ld : Bool)
    (paragraphs lists images word_count : Nat) (faq_sections : List String)
    (links : Nat) : List String :=
  ((specRuleLadder h1 h2 has_schema has_json_ld paragraphs lists images
      word_count faq_sections links).filter Prod.fst).map Prod.snd

/-- The "missing-field" fix the spec promises for one finding `(type, field)`:
kind "missing_field", the f-string description, and the registry example as
the code snippet. -/
def specMissingFieldFix (p : String × String) : Fix :=
  { type := "missing_field",
    description := "Dodaj wymagane pole \"" ++ p.2 ++ "\" dla typu " ++ p.1,
    code := get_schema_example p.1 p.2 }

/-- A concrete parsed document used to instantiate universally quantified
theorems: one Article JSON-LD block missing `author` and `datePublished`,
one Organization microdata element missing `url`, one FAQ container. -/
def sampleDoc : Doc :=
  { json_ld_scripts := [.obj (some "Article") ["@type", "headline"]],
    microdata := [{ itemtype := "https://schema.org/Organization",
                    itemprops := ["name"] }],
    h1 := 1, h2 := 0, h3 := 0,
    containers := [{ classes := ["faq"], id := "", texts := [" Q1 "] }],
    paragraphs := 2, lists := 0, images := 1, links := 5, word_count := 120 }

/-! Helper lemmas. -/

theorem mem_ite_singleton {α : Type} {c : Prop} [Decidable c] {a b : α} :
    (a ∈ if c then [b] else []) ↔ c ∧ a = b := by
  split <;> simp_all

theorem filterFired_cons (b : Bool) (msg : String) (rest : List (Bool × String)) :
    (((b, msg) :: rest).filter Prod.fst).map Prod.snd =
      (if b then [msg] else []) ++ ((rest.filter Prod.fst).map Prod.snd) := by
  cases b <;> simp [List.filter_cons]

theorem h1_rule_split {α : Type} (h1 : Nat) (A B : List α) :
    (if h1 = 0 then A else if h1 > 1 then B else []) =
      (if h1 = 0 then A else []) ++ (if h1 > 1 then B else []) := by
  rcases Nat.eq_zero_or_pos h1 with h | h
  · simp [h]
  · have h0 : ¬h1 = 0 := by omega
    simp [h0]

theorem filterMap_eq_map_of_forall {α β : Type} {l : List α} {f : α → Option β}
    {g : α → β} (h : ∀ x ∈ l, f x = some (g x)) : l.filterMap f = l.map g := by
  induction l with
  | nil => rfl
  | cons a l ih =>
    simp [List.filterMap_cons, h a (by simp)]
    exact ih (fun x hx => h x (by simp [hx]))

/-! The claims. -/

/-- C8: for every SchemaTypeSpec in the registry (Article, Product,
Organization, WebPage, FAQPage), the required field names and the
recommended field names are disjoint. The registry is a top-level constant
of a pure development, so no operation can mutate it. -/
theorem C8_registry_disjoint :
    schema_types.all
      (fun p => p.2.required.all (fun f => !(p.2.recommended.contains f))) = true := by
  decide

/-- C9: the core pipeline is deterministic — running `analyze_page` twice on
identical parsed documents yields identical ordered recommendation lists,
identical finding lists and identical suggested fixes. -/
theorem C9_deterministic (url : String) (d e : Doc) (h : d = e) :
    (analyze_page url d).recommendations = (analyze_page url e).recommendations ∧
    (analyze_page url d).schema_analysis.missing_required =
      (analyze_page url e).schema_analysis.missing_required ∧
    (analyze_page url d).suggested_fixes = (analyze_page url e).suggested_fixes := by
  subst h
  exact ⟨rfl, rfl, rfl⟩

/-- Witness for C9 at the concrete document `sampleDoc`. -/
theorem C9_deterministic_witness :
    (analyze_page "https://example.com" sampleDoc).recommendations =
      (analyze_page "https://example.com" sampleDoc).recommendations ∧
    (analyze_page "https://example.com" sampleDoc).schema_analysis.missing_required =
      (analyze_page "https://example.com" sampleDoc).schema_analysis.missing_required ∧
    (analyze_page "https://example.com" sampleDoc).suggested_fixes =
      (analyze_page "https://example.com" sampleDoc).suggested_fixes :=
  C9_deterministic "https://example.com" sampleDoc sampleDoc rfl

/-- C10: when the "basic" fix condition holds (neither `has_schema` nor
`has_json_ld`), no JSON-LD block and no microdata element existed, so
`missing_required` is empty and the suggested fixes are exactly the one
basic fix. -/
theorem C10_basic_fix_alone (j : List JsonLd) (m : List MicroItem)
    (h : (analyze_schema j m).has_schema = false ∧
         (analyze_schema j m).has_json_ld = false) :
    (analyze_schema j m).missing_required = [] ∧
    (analyze_schema j m).recommendations = [basicFix] := by
  obtain ⟨hs, hj⟩ := h
  have hj2 : j = [] := by
    simpa [analyze_schema, List.isEmpty_iff] using hj
  have hm2 : m = [] := by
    simpa [analyze_schema, List.isEmpty_iff] using hs
  subst hj2
  subst hm2
  exact ⟨rfl, rfl⟩

/-- Witness for C10 at the empty document. -/
theorem C10_basic_fix_alone_witness :
    (analyze_schema [] []).missing_required = [] ∧
    (analyze_schema [] []).recommendations = [basicFix] :=
  C10_basic_fix_alone [] [] ⟨rfl, rfl⟩

/-- C2 counterexample: a document whose only `itemtype`-carrying element has
an empty last path segment (`itemtype="https://schema.org/"`) produces no
microdata instance (`found_types` stays empty), yet `has_schema` is `true`,
contradicting the claim that `has_schema` holds only when an instance was
produced. -/
theorem C2_counterexample :
    (analyze_schema []
        [{ itemtype := "https://schema.org/", itemprops := [] }]).has_schema
        = true ∧
    (analyze_schema []
        [{ itemtype := "https://schema.org/", itemprops := [] }]).found_types
        = [] ∧
    (analyze_schema []
        [{ itemtype := "https://schema.org/", itemprops := [] }]).missing_required
        = [] := by
  refine ⟨rfl, ?_, rfl⟩
  decide

/-- C2 amended: `has_schema` is true iff the document contains at least one
element carrying an `itemtype` attribute — even when every such element has
an empty last path segment, is skipped, and produces no instance. -/
theorem C2_amended (j : List JsonLd) (m : List MicroItem) :
    (analyze_schema j m).has_schema = true ↔ m ≠ [] := by
  simp [analyze_schema]

/-- C3: `has_json_ld` is true iff at least one JSON-LD script block was
encountered, regardless of its content; a block with invalid JSON
contributes no `found_types` entry and no finding, does not abort the
audit, and the remaining blocks are processed exactly as if it were absent. -/
theorem C3_json_ld_flag_and_invalid_skip (j pre post : List JsonLd)
    (m : List MicroItem) :
    ((analyze_schema j m).has_json_ld = true ↔ j ≠ []) ∧
    (analyze_schema (pre ++ JsonLd.invalid :: post) m).has_json_ld = true ∧
    (analyze_schema (pre ++ JsonLd.invalid :: post) m).found_types =
      (analyze_schema (pre ++ post) m).found_types ∧
    (analyze_schema (pre ++ JsonLd.invalid :: post) m).missing_required =
      (analyze_schema (pre ++ post) m).missing_required := by
  refine ⟨by simp [analyze_schema], by simp [analyze_schema], ?_, ?_⟩ <;>
    simp [analyze_schema, processJsonLdBlock]

/-- C1 counterexample: a section whose class attribute is exactly "faq-box"
(and which has no id) is NOT detected as an FAQ section — the class test is
membership of the exact token "faq" in the token list, and "faq-box" is a
single token — so `faq_sections` stays empty, contradicting the claim. -/
theorem C1_counterexample :
    (analyze_page "https://example.com"
      { json_ld_scripts := [], microdata := [], h1 := 1, h2 := 1, h3 := 0,
        containers := [{ classes := ["faq-box"], id := "",
                         texts := [" Q: x A: y "] }],
        paragraphs := 3, lists := 1, images := 1, links := 3,
        word_count := 300 }).faq_sections = [] := by
  decide

/-- C1 amended: a div/section contributes one entry to `faq_sections` iff
its class token list contains the exact token "faq" (case-sensitive — so
`class="faq-box"` is NOT detected) or its id contains the case-insensitive
substring "faq"; every entry is the element's stripped visible text, in
document order, with no truncation or merging. -/
theorem C1_amended (url : String) (doc : Doc) :
    (analyze_page url doc).faq_sections =
      doc.containers.filterMap
        (fun c =>
          if "faq" ∈ c.classes ∨ strContainsSub (pyLower c.id) "faq" = true then
            some (String.join (c.texts.map pyStrip))
          else none) := by
  simp only [analyze_page]
  refine List.filterMap_congr (fun c _ => ?_)
  simp [isFaqSection, getTextStrip, List.elem_iff]

/-- C4: the "add an H1 heading" message is in the recommendations iff
`h1 = 0`, the "only one H1 per page" message is in the recommendations iff
`h1 > 1`, and the two never co-occur, for every document. -/
theorem C4_h1_rules (url : String) (doc : Doc) :
    ("Dodaj nagłówek H1" ∈ (analyze_page url doc).recommendations ↔
      doc.h1 = 0) ∧
    ("Upewnij się, że masz tylko jeden nagłówek H1 na stronie" ∈
        (analyze_page url doc).recommendations ↔ doc.h1 > 1) ∧
    ¬("Dodaj nagłówek H1" ∈ (analyze_page url doc).recommendations ∧
      "Upewnij się, że masz tylko jeden nagłówek H1 na stronie" ∈
        (analyze_page url doc).recommendations) := by
  by_cases h0 : doc.h1 = 0
  · simp [analyze_page, h0, mem_ite_singleton]
  · by_cases h1 : doc.h1 > 1
    · simp [analyze_page, h0, h1, mem_ite_singleton]
    · simp [analyze_page, h0, h1, mem_ite_singleton]

/-- C5: the recommendation list is exactly the messages of the rules that
fire, in the fixed nine-rule ladder order of the spec, each rule evaluated
once and appending at most one string. -/
theorem C5_rule_ladder (url : String) (doc : Doc) :
    (analyze_page url doc).recommendations =
      specRecommendations doc.h1 doc.h2
        (analyze_page url doc).has_schema (analyze_page url doc).has_json_ld
        doc.paragraphs doc.lists doc.images doc.word_count
        (analyze_page url doc).faq_sections doc.links := by
  simp [analyze_page, specRecommendations, specRuleLadder, filterFired_cons,
    h1_rule_split]

theorem mem_snd_processJsonLdBlock (b : JsonLd) (t f : String) :
    (t, f) ∈ (processJsonLdBlock b).2 ↔
      ∃ fields spec, jsonLdInstance b = some (t, fields) ∧
        schema_types.lookup t = some spec ∧ f ∈ spec.required ∧ f ∉ fields := by
  cases b with
  | invalid => simp [processJsonLdBlock, jsonLdInstance]
  | nonDict => simp [processJsonLdBlock, jsonLdInstance]
  | obj tv keys =>
    cases tv with
    | none => simp [processJsonLdBlock, jsonLdInstance]
    | some s =>
      by_cases hs : s = ""
      · simp [processJsonLdBlock, jsonLdInstance, hs]
      · cases hl : schema_types.lookup s with
        | none =>
          simp only [processJsonLdBlock, jsonLdInstance, hs, if_neg hs, hl]
          constructor
          · rintro ⟨⟩
          · rintro ⟨fields, spec, heq, hlook, -⟩
            obtain ⟨rfl, rfl⟩ := Prod.mk.injEq .. ▸ Option.some.injEq .. ▸ heq
            simp_all
        | some spec =>
          simp only [processJsonLdBlock, jsonLdInstance, if_neg hs, hl]
          constructor
          · intro hmem
            obtain ⟨g, hg, hgf⟩ := List.mem_map.mp hmem
            obtain ⟨hreq, hcont⟩ := List.mem_filter.mp hg
            obtain ⟨rfl, rfl⟩ := Prod.mk.injEq .. ▸ hgf
            refine ⟨keys, spec, rfl, hl, hreq, ?_⟩
            simpa [List.elem_iff] using hcont
          · rintro ⟨fields, spec2, heq, hlook, hreq, hnot⟩
            have ht : t = s ∧ fields = keys := by
              have h2 := Option.some.inj heq
              exact ⟨(congrArg Prod.fst h2).symm, (congrArg Prod.snd h2).symm⟩
            obtain ⟨rfl, rfl⟩ := ht
            rw [hl] at hlook
            injection hlook with h3
            subst h3
            refine List.mem_map.mpr ⟨f, List.mem_filter.mpr ⟨hreq, ?_⟩, rfl⟩
            simpa [List.elem_iff] using hnot

theorem lookup_registry_sound (t : String) (spec : SchemaTypeSpec)
    (h : schema_types.lookup t = some spec) (f : String)
    (hf : f ∈ spec.required) :
    f ∉ spec.recommended ∧ get_schema_example t f ≠ "" := by
  simp only [schema_types, List.lookup] at h
  split at h
  next h1 =>
    injection h with h2
    subst h2
    have ht : t = "Article" := by simpa using h1
    subst ht
    fin_cases hf <;> exact ⟨by decide, by decide⟩
  next =>
    split at h
    next h1 =>
      injection h with h2
      subst h2
      have ht : t = "Product" := by simpa using h1
      subst ht
      fin_cases hf <;> exact ⟨by decide, by decide⟩
    next =>
      split at h
      next h1 =>
        injection h with h2
        subst h2
        have ht : t = "Organization" := by simpa using h1
        subst ht
        fin_cases hf <;> exact ⟨by decide, by decide⟩
      next =>
        split at h
        next h1 =>
          injection h with h2
          subst h2
          have ht : t = "WebPage" := by simpa using h1
          subst ht
          fin_cases hf <;> exact ⟨by decide, by decide⟩
        next =>
          split at h
          next h1 =>
            injection h with h2
            subst h2
            have ht : t = "FAQPage" := by simpa using h1
            subst ht
            fin_cases hf
            exact ⟨by decide, by decide⟩
          next =>
            exact Option.noConfusion h

theorem mem_snd_processMicroItem (it : MicroItem) (t f : String) :
    (t, f) ∈ (processMicroItem it).2 ↔
      ∃ fields spec, microInstance it = some (t, fields) ∧
        schema_types.lookup t = some spec ∧ f ∈ spec.required ∧ f ∉ fields := by
  by_cases hs : lastSeg it.itemtype = ""
  · simp [processMicroItem, microInstance, hs]
  · cases hl : schema_types.lookup (lastSeg it.itemtype) with
    | none =>
      simp only [processMicroItem, microInstance, if_neg hs, hl]
      constructor
      · rintro ⟨⟩
      · rintro ⟨fields, spec, heq, hlook, -⟩
        obtain ⟨rfl, rfl⟩ := Prod.mk.injEq .. ▸ Option.some.injEq .. ▸ heq
        simp_all
    | some spec =>
      simp only [processMicroItem, microInstance, if_neg hs, hl]
      constructor
      · intro hmem
        obtain ⟨g, hg, hgf⟩ := List.mem_map.mp hmem
        obtain ⟨hreq, hcont⟩ := List.mem_filter.mp hg
        obtain ⟨rfl, rfl⟩ := Prod.mk.injEq .. ▸ hgf
        refine ⟨it.itemprops, spec, rfl, hl, hreq, ?_⟩
        simpa [List.elem_iff] using hcont
      · rintro ⟨fields, spec2, heq, hlook, hreq, hnot⟩
        have ht : t = lastSeg it.itemtype ∧ fields = it.itemprops := by
          have h2 := Option.some.inj heq
          exact ⟨(congrArg Prod.fst h2).symm, (congrArg Prod.snd h2).symm⟩
        obtain ⟨rfl, rfl⟩ := ht
        rw [hl] at hlook
        injection hlook with h3
        subst h3
        refine List.mem_map.mpr ⟨f, List.mem_filter.mpr ⟨hreq, ?_⟩, rfl⟩
        simpa [List.elem_iff] using hnot

theorem fst_processJsonLdBlock (b : JsonLd) :
    (processJsonLdBlock b).1 = ((jsonLdInstance b).map Prod.fst).toList := by
  cases b with
  | invalid => rfl
  | nonDict => rfl
  | obj tv keys =>
    cases tv with
    | none => rfl
    | some s =>
      by_cases hs : s = ""
      · simp [processJsonLdBlock, jsonLdInstance, hs]
      · cases hl : schema_types.lookup s <;>
          simp [processJsonLdBlock, jsonLdInstance, hs, hl]

theorem fst_processMicroItem (it : MicroItem) :
    (processMicroItem it).1 = ((microInstance it).map Prod.fst).toList := by
  by_cases hs : lastSeg it.itemtype = ""
  · simp [processMicroItem, microInstance, hs]
  · cases hl : schema_types.lookup (lastSeg it.itemtype) <;>
      simp [processMicroItem, microInstance, hs, hl]

theorem mem_fst_toList {α β : Type} (o : Option (α × β)) (t : α) :
    t ∈ (o.map Prod.fst).toList ↔ ∃ fields, o = some (t, fields) := by
  cases o with
  | none => simp
  | some p =>
    cases p with
    | mk a b => simp [eq_comm, and_comm]

theorem mem_found_types (j : List JsonLd) (m : List MicroItem) (t : String) :
    t ∈ (analyze_schema j m).found_types ↔
      ∃ fields, (t, fields) ∈ schemaInstances j m := by
  simp [analyze_schema, schemaInstances, List.mem_flatten, List.mem_filterMap,
    fst_processJsonLdBlock, fst_processMicroItem, mem_fst_toList]
  aesop

theorem mem_missing_required (j : List JsonLd) (m : List MicroItem)
    (t f : String) :
    (t, f) ∈ (analyze_schema j m).missing_required ↔
      ∃ fields spec, (t, fields) ∈ schemaInstances j m ∧
        schema_types.lookup t = some spec ∧ f ∈ spec.required ∧ f ∉ fields := by
  simp [analyze_schema, schemaInstances, List.mem_flatten, List.mem_filterMap,
    mem_snd_processJsonLdBlock, mem_snd_processMicroItem]
  aesop

/-- C6: a ValidationFinding `(type, field)` is in `missing_required` iff some
schema instance (JSON-LD or microdata) has that type, the type is registered,
`field` is one of its required fields, and the field is absent from the
instance's field set; a type is in `found_types` iff some instance carries
it (so unregistered types like "Recipe" appear there yet, having no registry
entry, can produce no finding); and a recommended field of a registered type
is never a finding. -/
theorem C6_findings_characterization (j : List JsonLd) (m : List MicroItem) :
    (∀ t f : String,
        ((t, f) ∈ (analyze_schema j m).missing_required ↔
          ∃ fields spec, (t, fields) ∈ schemaInstances j m ∧
            schema_types.lookup t = some spec ∧ f ∈ spec.required ∧
            f ∉ fields)) ∧
    (∀ t : String,
        (t ∈ (analyze_schema j m).found_types ↔
          ∃ fields, (t, fields) ∈ schemaInstances j m)) ∧
    (∀ t f : String, ∀ spec : SchemaTypeSpec,
        schema_types.lookup t = some spec → f ∈ spec.recommended →
          (t, f) ∉ (analyze_schema j m).missing_required) := by
  refine ⟨mem_missing_required j m, mem_found_types j m, ?_⟩
  intro t f spec hl hrec hmem
  obtain ⟨fields, spec2, -, hl2, hreq, -⟩ :=
    (mem_missing_required j m t f).mp hmem
  rw [hl] at hl2
  injection hl2 with h2
  subst h2
  exact (lookup_registry_sound t spec hl f hreq).1 hrec

theorem analyze_schema_recommendations (j : List JsonLd) (m : List MicroItem) :
    (analyze_schema j m).recommendations =
      (if !(analyze_schema j m).has_schema && !(analyze_schema j m).has_json_ld
        then [basicFix] else []) ++
        (analyze_schema j m).missing_required.filterMap mkMissingFix := rfl

/-- C7: the "missing-field" suggested fixes are exactly one fix per
ValidationFinding, in finding order, each carrying the registry example
`get_schema_example(type, field)` as its code snippet; and every required
field of every registered type has a nonempty registered example, so no
finding's fix is ever dropped by the `if example:` guard. -/
theorem C7_fix_per_finding (j : List JsonLd) (m : List MicroItem) :
    (analyze_schema j m).recommendations.filter
        (fun fx => fx.type == "missing_field") =
      (analyze_schema j m).missing_required.map specMissingFieldFix ∧
    schema_types.all
      (fun p => p.2.required.all
        (fun f => !(get_schema_example p.1 f == ""))) = true := by
  refine ⟨?_, by decide⟩
  have hforall : ∀ p ∈ (analyze_schema j m).missing_required,
      mkMissingFix p = some (specMissingFieldFix p) := by
    rintro ⟨t, f⟩ hp
    obtain ⟨fields, spec, -, hl, hreq, -⟩ :=
      (mem_missing_required j m t f).mp hp
    have hx := lookup_registry_sound t spec hl f hreq
    simp [mkMissingFix, specMissingFieldFix, hl, hx.2]
  rw [analyze_schema_recommendations, List.filter_append,
    filterMap_eq_map_of_forall hforall]
  have hbasic :
      (if !(analyze_schema j m).has_schema && !(analyze_schema j m).has_json_ld
        then [basicFix] else []).filter
          (fun fx => fx.type == "missing_field") = [] := by
    split
    · simp [basicFix, List.filter]
    · simp
  rw [hbasic, List.nil_append, List.filter_map]
  have hkeep :
      ((analyze_schema j m).missing_required.filter
          ((fun fx => fx.type == "missing_field") ∘ specMissingFieldFix)) =
        (analyze_schema j m).missing_required := by
    refine List.filter_eq_self.mpr (fun p _ => ?_)
    simp [specMissingFieldFix]
  rw [hkeep]

end LLMAuditor
